import Mathlib

set_option autoImplicit false

namespace Dblp

/-! # Shallow embedding of dblp-python (src/dblp/__init__.py)

XML elements are modelled as rooted trees carrying a tag, an attribute
association list, an optional direct text node, and an ordered list of child
elements.  Python dictionaries are modelled as association lists in insertion
order. -/

/-- Decoded values produced by `make_dict_from_tree`: the raw text of a leaf
element (possibly `None`), a promoted list of repeated-sibling values, or a
nested mapping (a Python dict, modelled as an insertion-ordered association
list). -/
inductive DVal where
  | txt (t : Option String) : DVal
  | lst (l : List DVal) : DVal
  | obj (m : List (String × DVal)) : DVal
deriving Repr

/-- An XML element: tag, attribute list, optional direct text-node content
(`none` models an element with no text node child), ordered children. -/
inductive XTree where
  | node (tag : String) (attrs : List (String × String)) (text : Option String)
      (children : List XTree) : XTree
deriving Repr

def XTree.tag : XTree → String
  | .node t _ _ _ => t

def XTree.attrs : XTree → List (String × String)
  | .node _ a _ _ => a

def XTree.text : XTree → Option String
  | .node _ _ x _ => x

def XTree.children : XTree → List XTree
  | .node _ _ _ c => c

/-- `attrib.get`: first binding of an attribute name, if any. -/
def lookupAttr (t : XTree) (key : String) : Option String :=
  (t.attrs.find? (fun p => p.1 = key)).map Prod.snd

/-- Python dict lookup (`key in d` / `d[key]`) on the association-list model. -/
def lookupD : List (String × DVal) → String → Option DVal
  | [], _ => none
  | (k, v) :: rest, key => if k = key then some v else lookupD rest key

/-- Python dict in-place update of an existing key (`d[key] = v` keeps the
key's insertion position). -/
def setD : List (String × DVal) → String → DVal → List (String × DVal)
  | [], _, _ => []
  | (k, v) :: rest, key, w => if k = key then (k, w) :: rest else (k, v) :: setD rest key w

/-- One merge step of `make_dict_from_tree`: insert the decoded value of a
child under its tag; on a repeated tag, promote the existing entry to a list
(if it is not one already) and append. -/
def insertTag (acc : List (String × DVal)) (tag : String) (v : DVal) :
    List (String × DVal) :=
  match lookupD acc tag with
  | none => acc ++ [(tag, v)]
  | some (DVal.lst l) => setD acc tag (DVal.lst (l ++ [v]))
  | some (DVal.txt t) => setD acc tag (DVal.lst [DVal.txt t, v])
  | some (DVal.obj m) => setD acc tag (DVal.lst [DVal.obj m, v])

mutual

/-- The value bound to `tree.tag` by `internal_iter` started on an empty
accumulator: the text for a leaf, otherwise the merged dictionary of the
children. -/
def nodeVal : XTree → DVal
  | .node _ _ t [] => .txt t
  | .node _ _ _ (c :: cs) => .obj (mergeChildren [] (c :: cs))

/-- The `for each in tree.getchildren()` loop of `internal_iter`, folding each
child into the accumulated dictionary. -/
def mergeChildren (acc : List (String × DVal)) : List XTree → List (String × DVal)
  | [] => acc
  | c :: cs => mergeChildren (insertTag acc c.tag (nodeVal c)) cs

end

/-- `make_dict_from_tree(element_tree)`: `{}` on `None`, otherwise the
single-key dictionary binding the root tag to its decoded value. -/
def make_dict_from_tree : Option XTree → List (String × DVal)
  | none => []
  | some t => [(t.tag, nodeVal t)]

/-- The decoded values, in document order, of the children of one parent that
carry a given tag. -/
def childVals (cs : List XTree) (tag : String) : List DVal :=
  (cs.filter (fun c => c.tag == tag)).map nodeVal

/-- The effect of one `insertTag` on the entry under the inserted tag:
first occurrence inserts the value directly, later occurrences promote to a
list and append. -/
def addVal : Option DVal → DVal → DVal
  | none, v => v
  | some (DVal.lst l), v => DVal.lst (l ++ [v])
  | some (DVal.txt t), v => DVal.lst [DVal.txt t, v]
  | some (DVal.obj m), v => DVal.lst [DVal.obj m, v]

/-! ## Lazy entities: LazyAPIData, Author, Publication -/

/-- The named tuple `Citation(reference, label)`; `reference` is the cite
element's direct text node (possibly absent). -/
structure Citation where
  reference : Option String
  label : Option String
deriving Repr, DecidableEq

/-- The named tuple `Series(text, href)`. -/
structure Series where
  text : Option String
  href : Option String
deriving Repr, DecidableEq

/-- Values stored in an entity's `data` dictionary. -/
inductive FVal where
  | str (s : String) : FVal
  | optStr (s : Option String) : FVal
  | int (n : Int) : FVal
  | strList (l : List String) : FVal
  | dicts (l : List (List (String × DVal))) : FVal
  | cites (l : List Citation) : FVal
  | ser (s : Option Series) : FVal
deriving Repr

/-- Errors surfaced by entity loading and field access: an undeclared field
name (the `raise` branch of `LazyAPIData.__getattr__`), a missing dictionary
or attribute key, the `ValueError` for a document with no top-level record,
and the `int(...)` failure on a missing or non-numeric year. -/
inductive LErr where
  | invalidField : LErr
  | keyError : LErr
  | noRecord : LErr
  | parseError : LErr
deriving Repr, DecidableEq

/-- Python `int(s)` on a string: optional surrounding whitespace, optional
sign, then at least one digit; anything else raises. -/
def parsePyInt (s : String) : Option Int :=
  let t := s.trim
  let core := if t.startsWith "-" || t.startsWith "+" then t.drop 1 else t
  if core.length != 0 && core.all Char.isDigit then
    let n : Nat := core.foldl (fun acc c => acc * 10 + (c.toNat - 48)) 0
    if t.startsWith "-" then some (-(n : Int)) else some (n : Int)
  else none

/-- `first_or_none(seq)`. -/
def first_or_none {α : Type} (l : List α) : Option α := l.head?

/-- The xpath step `tag` from one element: its children carrying that tag. -/
def childrenTagged (t : XTree) (tag : String) : List XTree :=
  t.children.filter (fun c => c.tag == tag)

/-- The xpath step `text()` over a node set: the existing direct text nodes
of the selected elements, in document order. -/
def textsOf (ts : List XTree) : List String := ts.filterMap XTree.text

/-- `first_or_none(el.xpath(tag + "/text()"))`. -/
def firstText (t : XTree) (tag : String) : Option String :=
  first_or_none (textsOf (childrenTagged t tag))

/-- An absolute xpath `/tag` applied to the document root. -/
def rootIfTag (doc : XTree) (tag : String) : List XTree :=
  if doc.tag == tag then [doc] else []

/-- The declared lazy attributes of `Author`. -/
def authorAttrs : List String := ["name", "publications", "homepages", "affiliation"]

/-- xpath `/dblpperson/person`. -/
def personEls (doc : XTree) : List XTree :=
  (rootIfTag doc "dblpperson").flatMap (fun r => childrenTagged r "person")

/-- xpath `/dblpperson/person/note[@type=affiliation]/text()`. -/
def affiliationTexts (doc : XTree) : List String :=
  textsOf ((personEls doc).flatMap (fun p =>
    (childrenTagged p "note").filter (fun n => lookupAttr n "type" == some "affiliation")))

/-- xpath `/dblpperson/r/*`: every element child of every `r` element. -/
def recordEls (doc : XTree) : List XTree :=
  ((rootIfTag doc "dblpperson").flatMap (fun r => childrenTagged r "r")).flatMap XTree.children

/-- xpath `/dblpperson/r/*[text()]` mapped through the Tree Decoder: the
predicate `text()` keeps exactly the record elements owning a direct text
node. -/
def authorPublications (doc : XTree) : List (List (String × DVal)) :=
  ((recordEls doc).filter (fun r => r.text.isSome)).map
    (fun r => make_dict_from_tree (some r))

/-- xpath `/dblpperson/person/url/text()`. -/
def homepageTexts (doc : XTree) : List String :=
  textsOf ((personEls doc).flatMap (fun p => childrenTagged p "url"))

/-- `Author.load_data` run against a fetched profile document: requires the
root `name` attribute (`KeyError` otherwise), then builds the full data
dictionary in one step. -/
def Author.load_data (doc : XTree) : Except LErr (List (String × FVal)) :=
  match lookupAttr doc "name" with
  | none => .error .keyError
  | some nm =>
    .ok [("name", .str nm),
         ("affiliation", .strList (affiliationTexts doc)),
         ("publications", .dicts (authorPublications doc)),
         ("homepages", .strList (homepageTexts doc))]

/-- The declared lazy attributes of `Publication`. -/
def pubAttrs : List String :=
  ["type", "sub_type", "mdate", "authors", "editors", "title", "year", "month",
   "journal", "volume", "number", "chapter", "pages", "ee", "isbn", "url",
   "booktitle", "crossref", "publisher", "school", "citations", "series"]

/-- `first_or_none(root.xpath(/dblp/*[1]))`: the first element child of a
`dblp` document root. -/
def pubRecord (doc : XTree) : Option XTree :=
  first_or_none ((rootIfTag doc "dblp").flatMap XTree.children)

/-- `int(first_or_none(publication.xpath(year/text())))`: a missing year text
raises `TypeError`, a non-numeric one raises `ValueError`; both are modelled
as `parseError`. -/
def yearOf (pub : XTree) : Except LErr Int :=
  match first_or_none (textsOf (childrenTagged pub "year")) with
  | none => .error .parseError
  | some s =>
    match parsePyInt s with
    | none => .error .parseError
    | some n => .ok n

/-- The citation extraction: every `cite` child whose text is not the
ellipsis placeholder, paired with its optional label attribute. -/
def citationsOf (pub : XTree) : List Citation :=
  ((childrenTagged pub "cite").filter (fun c => !(c.text == some "..."))).map
    (fun c => ⟨c.text, lookupAttr c "label"⟩)

/-- The series extraction: only the first `series` child is kept. -/
def seriesOf (pub : XTree) : Option Series :=
  first_or_none ((childrenTagged pub "series").map
    (fun s => Series.mk s.text (lookupAttr s "href")))

/-- `Publication.load_data` run against a fetched record document: fails with
`ValueError` when no top-level record exists, propagates the year parse
failure, and otherwise builds the full 22-key data dictionary in one step. -/
def Publication.load_data (doc : XTree) : Except LErr (List (String × FVal)) :=
  match pubRecord doc with
  | none => .error .noRecord
  | some pub =>
    match yearOf pub with
    | .error e => .error e
    | .ok yr =>
      .ok [("type", .str pub.tag),
           ("sub_type", .optStr (lookupAttr pub "publtype")),
           ("mdate", .optStr (lookupAttr pub "mdate")),
           ("authors", .strList (textsOf (childrenTagged pub "author"))),
           ("editors", .strList (textsOf (childrenTagged pub "editor"))),
           ("title", .optStr (firstText pub "title")),
           ("year", .int yr),
           ("month", .optStr (firstText pub "month")),
           ("journal", .optStr (firstText pub "journal")),
           ("volume", .optStr (firstText pub "volume")),
           ("number", .optStr (firstText pub "number")),
           ("chapter", .optStr (firstText pub "chapter")),
           ("pages", .optStr (firstText pub "pages")),
           ("ee", .optStr (firstText pub "ee")),
           ("isbn", .optStr (firstText pub "isbn")),
           ("url", .optStr (firstText pub "url")),
           ("booktitle", .optStr (firstText pub "booktitle")),
           ("crossref", .optStr (firstText pub "crossref")),
           ("publisher", .optStr (firstText pub "publisher")),
           ("school", .optStr (firstText pub "school")),
           ("citations", .cites (citationsOf pub)),
           ("series", .ser (seriesOf pub))]

/-- Python dict lookup on an entity's `data` dictionary. -/
def lookupF : List (String × FVal) → String → Option FVal
  | [], _ => none
  | (k, v) :: rest, key => if k = key then some v else lookupF rest key

/-- `LazyAPIData.__getattr__`, parameterized by the subclass's declared
attribute list and `load_data`, and by the document the service returns for
this access.  Result: the access outcome, the entity's `data` afterwards, and
whether a load was attempted during this access. -/
def lazyGetattr (attrs : List String)
    (loadFn : XTree → Except LErr (List (String × FVal))) (doc : XTree)
    (st : Option (List (String × FVal))) (key : String) :
    Except LErr FVal × Option (List (String × FVal)) × Bool :=
  if key ∈ attrs then
    match st with
    | some d =>
      (match lookupF d key with
       | some v => .ok v
       | none => .error .keyError, some d, false)
    | none =>
      match loadFn doc with
      | .error e => (.error e, none, true)
      | .ok d =>
        (match lookupF d key with
         | some v => .ok v
         | none => .error .keyError, some d, true)
  else (.error .invalidField, st, false)

/-- A sequence of field accesses on one entity, each paired with the document
the service would return at that moment; yields the final `data` state. -/
def runEntity (attrs : List String)
    (loadFn : XTree → Except LErr (List (String × FVal)))
    (st : Option (List (String × FVal))) (ops : List (String × XTree)) :
    Option (List (String × FVal)) :=
  ops.foldl (fun s op => (lazyGetattr attrs loadFn op.2 s op.1).2.1) st

/-- The key list of a data dictionary. -/
def keysOf (d : List (String × FVal)) : List String := d.map Prod.fst

/-- The invariant claimed for an entity's `data`: completely absent, or
populated with exactly the declared field-name set. -/
def entityInv (attrs : List String) (st : Option (List (String × FVal))) : Prop :=
  st = none ∨ ∃ d, st = some d ∧ ∀ k, k ∈ keysOf d ↔ k ∈ attrs

mutual

/-- Modelled from the spec, for comparison only: does an element have text
content anywhere in its subtree? (The source instead tests for a direct text
node.) -/
def hasDeepText : XTree → Bool
  | .node _ _ x cs => x.isSome || anyDeepText cs

/-- Companion of `hasDeepText` over a child list. -/
def anyDeepText : List XTree → Bool
  | [] => false
  | c :: cs => hasDeepText c || anyDeepText cs

end

/-- Modelled from the spec, for comparison only: the `publications` list the
spec describes, one Tree-Decoder result per record with any text anywhere in
its subtree. -/
def specAuthorPublications (doc : XTree) : List (List (String × DVal)) :=
  ((recordEls doc).filter hasDeepText).map (fun r => make_dict_from_tree (some r))

/-- A profile document whose single record element has no direct text node
but does contain text deeper in its subtree. -/
def deepTextDoc : XTree :=
  .node "dblpperson" [("name", "Jane Roe")] none
    [.node "r" [] none
      [.node "article" [] none [.node "title" [] (some "X") []]]]

/-- A record document whose publication element has no `year` child. -/
def yearlessDoc : XTree :=
  .node "dblp" [] none
    [.node "article" [] none [.node "title" [] (some "X") []]]

/-- A record document whose publication element has a complete field set,
including a numeric year. -/
def goodPubDoc : XTree :=
  .node "dblp" [] none
    [.node "article" [] none
      [.node "title" [] (some "X") [], .node "year" [] (some "2020") [],
       .node "author" [] (some "A") [], .node "author" [] (some "B") []]]

/-! ## Author Search Driver (search_author, resolve_url) -/

/-- The result-collection loop of `search_author`: walk the futures in
submission order, skip those whose `resolve_url` swallowed a failure and
returned `None`, append the rest. -/
def collectResults {α : Type} : List (Option α) → List α
  | [] => []
  | none :: rest => collectResults rest
  | some a :: rest => a :: collectResults rest

/-- `search_author` relative to an abstract per-hit resolver (the
`resolve_url` + `Author.load_data` pipeline, which swallows every exception
into `None`).  An absent hit list in the search response makes the function
return with no value (Python `None`), modelled as `none`. -/
def search_author {α β : Type} (resolve : α → Option β)
    (hits : Option (List α)) : Option (List β) :=
  match hits with
  | none => none
  | some hs => some (collectResults (hs.map resolve))

/-! ## Publication Search Driver (search_publication) -/

/-- One hit record of a publication search page; `info` abstracts the inner
info payload. -/
structure PubHit where
  info : Nat
deriving Repr, DecidableEq

/-- One page response: the server-reported `@first`, `@sent`, `@total`
counts and the optional `hit` list. -/
structure PageResp where
  first : Nat
  sent : Nat
  total : Nat
  hit : Option (List PubHit)
deriving Repr

/-- `cleanup(pubs)`: reduce each hit to its `info` payload. -/
def cleanup (pubs : List PubHit) : List Nat := pubs.map PubHit.info

/-- A failed page request (the exception a future re-raises on `result()`). -/
inductive PageErr where
  | transport (code : Nat) : PageErr
deriving Repr, DecidableEq

/-- The `while futures` drain loop of `search_publication` over an abstract
transport oracle mapping (year, offset) to a page outcome.  The pending set
is a stack (head = most recently submitted); each drained page is appended to
the request log; a no-hit or zero-total page is discarded; otherwise its hits
are aggregated and, when `first + sent < total`, a continuation for the same
year at offset `first + sent` is pushed.  A failing request aborts the whole
loop with its error.  `none` means the fuel ran out before the pending set
emptied. -/
def pubLoop (oracle : Nat → Nat → Except PageErr PageResp) :
    Nat → List (Nat × Nat) → List (Nat × Nat) → List Nat →
    Option (Except PageErr (List (Nat × Nat) × List Nat))
  | _, [], log, acc => some (.ok (log, acc))
  | 0, _ :: _, _, _ => none
  | fuel + 1, (y, f) :: rest, log, acc =>
    match oracle y f with
    | .error e => some (.error e)
    | .ok r =>
      if r.total = 0 || r.hit.isNone then
        pubLoop oracle fuel rest (log ++ [(y, f)]) acc
      else
        let acc2 := acc ++ cleanup (r.hit.getD [])
        if r.first + r.sent < r.total then
          pubLoop oracle fuel ((y, r.first + r.sent) :: rest) (log ++ [(y, f)]) acc2
        else
          pubLoop oracle fuel rest (log ++ [(y, f)]) acc2

/-- `search_publication`: submit one initial page per year (offset 0, page
size 1000) and drain; the initial futures are popped last-submitted-first. -/
def search_publication (oracle : Nat → Nat → Except PageErr PageResp)
    (years : List Nat) (fuel : Nat) :
    Option (Except PageErr (List (Nat × Nat) × List Nat)) :=
  pubLoop oracle fuel ((years.map (fun y => (y, 0))).reverse) [] []

/-- The request log of a completed driver run. -/
def runLog (r : Option (Except PageErr (List (Nat × Nat) × List Nat))) :
    Option (List (Nat × Nat)) :=
  match r with
  | some (.ok (log, _)) => some log
  | _ => none

/-- The aggregated hit payloads of a completed driver run. -/
def runHits (r : Option (Except PageErr (List (Nat × Nat) × List Nat))) :
    Option (List Nat) :=
  match r with
  | some (.ok (_, acc)) => some acc
  | _ => none

/-- A server for which every year reports total 2500 at page size 1000; each
page carries `sent` hits whose payload records the page offset. -/
def oracle2500 (_y f : Nat) : Except PageErr PageResp :=
  if f = 0 then
    .ok { first := 0, sent := 1000, total := 2500,
          hit := some (List.replicate 1000 ⟨0⟩) }
  else if f = 1000 then
    .ok { first := 1000, sent := 1000, total := 2500,
          hit := some (List.replicate 1000 ⟨1000⟩) }
  else if f = 2000 then
    .ok { first := 2000, sent := 500, total := 2500,
          hit := some (List.replicate 500 ⟨2000⟩) }
  else
    .ok { first := f, sent := 0, total := 2500, hit := none }

/-- A server whose first page succeeds with hits but whose continuation page
fails. -/
def oracleFailPage2 (_y f : Nat) : Except PageErr PageResp :=
  if f = 0 then
    .ok { first := 0, sent := 2, total := 5, hit := some [⟨1⟩, ⟨2⟩] }
  else .error (.transport 42)

/-- A server whose pages report counts demanding more data but carry no hit
list. -/
def oracleNoHit (_y _f : Nat) : Except PageErr PageResp :=
  .ok { first := 0, sent := 1000, total := 2500, hit := none }

/-! ## Theorems -/

@[simp] theorem addVal_none (v : DVal) : addVal none v = v := rfl

@[simp] theorem addVal_lst (l : List DVal) (v : DVal) :
    addVal (some (DVal.lst l)) v = DVal.lst (l ++ [v]) := rfl

@[simp] theorem addVal_txt (t : Option String) (v : DVal) :
    addVal (some (DVal.txt t)) v = DVal.lst [DVal.txt t, v] := rfl

@[simp] theorem addVal_obj (m : List (String × DVal)) (v : DVal) :
    addVal (some (DVal.obj m)) v = DVal.lst [DVal.obj m, v] := rfl

theorem nodeVal_ne_lst (t : XTree) (l : List DVal) : nodeVal t ≠ DVal.lst l := by
  cases t with
  | node tg a x cs => cases cs <;> simp [nodeVal]

theorem lookupD_append_single (acc : List (String × DVal)) (p : String × DVal)
    (key : String) :
    lookupD (acc ++ [p]) key =
      match lookupD acc key with
      | some v => some v
      | none => if p.1 = key then some p.2 else none := by
  induction acc with
  | nil => simp [lookupD]
  | cons q rest ih =>
    obtain ⟨k, v⟩ := q
    by_cases h : k = key <;> simp [lookupD, h, ih]

theorem lookupD_setD (acc : List (String × DVal)) (key : String) (w : DVal)
    (key2 : String) :
    lookupD (setD acc key w) key2 =
      if key2 = key then (lookupD acc key).map (fun _ => w)
      else lookupD acc key2 := by
  induction acc with
  | nil => simp [lookupD, setD]
  | cons q rest ih =>
    obtain ⟨k, v⟩ := q
    simp only [setD, lookupD]
    split_ifs with h1 h2 h3 <;>
      simp_all [lookupD, eq_comm]

theorem lookupD_insertTag (acc : List (String × DVal)) (tag : String) (v : DVal)
    (key : String) :
    lookupD (insertTag acc tag v) key =
      if key = tag then some (addVal (lookupD acc tag) v)
      else lookupD acc key := by
  unfold insertTag
  cases h : lookupD acc tag with
  | none =>
    rw [lookupD_append_single]
    by_cases hk : key = tag
    · subst hk
      simp [h]
    · have hk2 : ¬tag = key := fun hc => hk hc.symm
      cases h2 : lookupD acc key <;> simp [h2, hk, hk2]
  | some w =>
    cases w <;>
      · rw [lookupD_setD]
        by_cases hk : key = tag <;> simp [hk, h]

theorem lookupD_mergeChildren (cs : List XTree) (acc : List (String × DVal))
    (key : String) :
    lookupD (mergeChildren acc cs) key =
      (childVals cs key).foldl (fun o v => some (addVal o v)) (lookupD acc key) := by
  induction cs generalizing acc with
  | nil => simp [mergeChildren, childVals]
  | cons c cs ih =>
    rw [mergeChildren, ih]
    by_cases h : c.tag = key
    · simp [childVals, List.filter_cons, h, lookupD_insertTag]
    · have h2 : ¬key = c.tag := fun hc => h hc.symm
      simp [childVals, List.filter_cons, h, lookupD_insertTag, h2]

theorem foldl_addVal_lst (vs : List DVal) (l : List DVal) :
    vs.foldl (fun o v => some (addVal o v)) (some (DVal.lst l)) =
      some (DVal.lst (l ++ vs)) := by
  induction vs generalizing l with
  | nil => simp
  | cons v vs ih =>
    rw [List.foldl_cons, addVal_lst, ih]
    simp

theorem foldl_addVal_one (v : DVal) :
    [v].foldl (fun o w => some (addVal o w)) (none : Option DVal) = some v := by
  simp

theorem foldl_addVal_two (v1 v2 : DVal) (vs : List DVal)
    (h1 : ∀ l, v1 ≠ DVal.lst l) :
    (v1 :: v2 :: vs).foldl (fun o v => some (addVal o v)) none =
      some (DVal.lst (v1 :: v2 :: vs)) := by
  rw [List.foldl_cons, List.foldl_cons]
  have h2 : addVal (some v1) v2 = DVal.lst [v1, v2] := by
    cases v1 with
    | lst l => exact absurd rfl (h1 l)
    | txt t => rfl
    | obj m => rfl
  rw [addVal_none, h2, foldl_addVal_lst]
  simp

/-- C1: In the Tree Decoder (`make_dict_from_tree`), a tag occurring k ≥ 2
times among the children of one parent is bound to an ordered list of exactly
k decoded entries in document order; a tag occurring exactly once among
siblings is bound to the child's scalar/mapping result directly, never a
list; a leaf node decodes to the single-entry mapping from its tag to its
text. -/
theorem C1_tree_decoder_list_promotion :
    (∀ (cs : List XTree) (tag : String),
        2 ≤ (childVals cs tag).length →
        lookupD (mergeChildren [] cs) tag = some (DVal.lst (childVals cs tag)) ∧
        (childVals cs tag).length =
          (cs.filter (fun c => c.tag == tag)).length) ∧
    (∀ (cs : List XTree) (tag : String) (c : XTree),
        cs.filter (fun c => c.tag == tag) = [c] →
        lookupD (mergeChildren [] cs) tag = some (nodeVal c) ∧
        ∀ l, nodeVal c ≠ DVal.lst l) ∧
    (∀ (tg : String) (a : List (String × String)) (x : Option String),
        make_dict_from_tree (some (.node tg a x [])) = [(tg, DVal.txt x)]) ∧
    (∀ (tg : String) (a : List (String × String)) (x : Option String)
        (c : XTree) (cs : List XTree),
        make_dict_from_tree (some (.node tg a x (c :: cs))) =
          [(tg, DVal.obj (mergeChildren [] (c :: cs)))]) := by
  refine ⟨?_, ?_, ?_, ?_⟩
  · intro cs tag h
    constructor
    · rw [lookupD_mergeChildren]
      match hcv : childVals cs tag with
      | [] => rw [hcv] at h; simp at h
      | [v] => rw [hcv] at h; simp at h
      | v1 :: v2 :: rest =>
        have hv1 : v1 ∈ childVals cs tag := by
          rw [hcv]; exact List.mem_cons_self _ _
        obtain ⟨c0, _, hc0⟩ := List.mem_map.1 hv1
        have hne : ∀ l, v1 ≠ DVal.lst l := fun l => hc0 ▸ nodeVal_ne_lst c0 l
        simp only [lookupD]
        exact foldl_addVal_two v1 v2 rest hne
    · simp [childVals]
  · intro cs tag c h
    have hcv : childVals cs tag = [nodeVal c] := by
      simp [childVals, h]
    refine ⟨?_, fun l => nodeVal_ne_lst c l⟩
    rw [lookupD_mergeChildren, hcv]
    simp only [lookupD]
    exact foldl_addVal_one (nodeVal c)
  · intro tg a x
    rfl
  · intro tg a x c cs
    rfl

/-- Witness for C1 at a concrete parent with children tagged b, b, c. -/
theorem C1_tree_decoder_list_promotion_witness :
    (2 ≤ (childVals
        [XTree.node "b" [] (some "1") [], XTree.node "b" [] (some "2") [],
         XTree.node "c" [] (some "3") []] "b").length ∧
      lookupD (mergeChildren []
        [XTree.node "b" [] (some "1") [], XTree.node "b" [] (some "2") [],
         XTree.node "c" [] (some "3") []]) "b" =
        some (DVal.lst (childVals
          [XTree.node "b" [] (some "1") [], XTree.node "b" [] (some "2") [],
           XTree.node "c" [] (some "3") []] "b"))) ∧
    lookupD (mergeChildren []
        [XTree.node "b" [] (some "1") [], XTree.node "b" [] (some "2") [],
         XTree.node "c" [] (some "3") []]) "c" =
      some (nodeVal (XTree.node "c" [] (some "3") [])) :=
  ⟨⟨by decide,
    ((C1_tree_decoder_list_promotion.1
      [XTree.node "b" [] (some "1") [], XTree.node "b" [] (some "2") [],
       XTree.node "c" [] (some "3") []] "b") (by decide)).1⟩,
   ((C1_tree_decoder_list_promotion.2.1
      [XTree.node "b" [] (some "1") [], XTree.node "b" [] (some "2") [],
       XTree.node "c" [] (some "3") []] "c"
      (XTree.node "c" [] (some "3") []) (by rfl)).1)⟩


theorem author_load_keys (doc : XTree) (d : List (String × FVal))
    (h : Author.load_data doc = .ok d) :
    keysOf d = ["name", "affiliation", "publications", "homepages"] := by
  unfold Author.load_data at h
  split at h
  · simp at h
  · simp at h; subst h; rfl

theorem pub_load_keys (doc : XTree) (d : List (String × FVal))
    (h : Publication.load_data doc = .ok d) :
    keysOf d = pubAttrs := by
  unfold Publication.load_data at h
  split at h
  · simp at h
  · split at h
    · simp at h
    · simp at h; subst h; rfl

theorem lazyGetattr_entityInv (attrs : List String)
    (loadFn : XTree → Except LErr (List (String × FVal))) (doc : XTree)
    (st : Option (List (String × FVal))) (key : String)
    (hload : ∀ doc2 d, loadFn doc2 = .ok d → ∀ k, k ∈ keysOf d ↔ k ∈ attrs)
    (h : entityInv attrs st) :
    entityInv attrs (lazyGetattr attrs loadFn doc st key).2.1 := by
  unfold lazyGetattr
  by_cases hk : key ∈ attrs
  · rw [if_pos hk]
    cases st with
    | some d => exact h
    | none =>
      cases hl : loadFn doc with
      | error e => exact Or.inl rfl
      | ok d => exact Or.inr ⟨d, rfl, hload doc d hl⟩
  · rw [if_neg hk]
    exact h

theorem runEntity_entityInv (attrs : List String)
    (loadFn : XTree → Except LErr (List (String × FVal)))
    (hload : ∀ doc d, loadFn doc = .ok d → ∀ k, k ∈ keysOf d ↔ k ∈ attrs) :
    ∀ (ops : List (String × XTree)) (st : Option (List (String × FVal))),
      entityInv attrs st → entityInv attrs (runEntity attrs loadFn st ops) := by
  intro ops
  induction ops with
  | nil => intro st h; exact h
  | cons op ops ih =>
    intro st h
    exact ih _ (lazyGetattr_entityInv attrs loadFn op.2 st op.1 hload h)

/-- C3: For every LazyRecord (Author or Publication) and every sequence of
field accesses starting unloaded, the `data` mapping is observable only as
completely absent or as populated with exactly the declared field-name set;
no partial population is observable. -/
theorem C3_lazy_fields_all_or_nothing :
    (∀ ops : List (String × XTree),
        entityInv authorAttrs (runEntity authorAttrs Author.load_data none ops)) ∧
    (∀ ops : List (String × XTree),
        entityInv pubAttrs (runEntity pubAttrs Publication.load_data none ops)) := by
  constructor
  · intro ops
    refine runEntity_entityInv _ _ ?_ ops none (Or.inl rfl)
    intro doc d hd k
    rw [author_load_keys doc d hd]
    simp [authorAttrs]
    tauto
  · intro ops
    refine runEntity_entityInv _ _ ?_ ops none (Or.inl rfl)
    intro doc d hd k
    rw [pub_load_keys doc d hd]

/-- C7: Accessing a field name outside the declared set fails with the
invalid-field error, whether the entity is loaded or not, leaves the state
untouched, and never attempts a load. -/
theorem C7_invalid_field_access :
    ∀ (key : String) (doc : XTree) (stA stP : Option (List (String × FVal))),
      (key ∉ authorAttrs →
        lazyGetattr authorAttrs Author.load_data doc stA key =
          (Except.error LErr.invalidField, stA, false)) ∧
      (key ∉ pubAttrs →
        lazyGetattr pubAttrs Publication.load_data doc stP key =
          (Except.error LErr.invalidField, stP, false)) := by
  intro key doc stA stP
  constructor <;> intro hk <;> simp [lazyGetattr, hk]

/-- Witness for C7: the undeclared field `affiliation2`, on an unloaded
Author and on a loaded-state Publication. -/
theorem C7_invalid_field_access_witness :
    ("affiliation2" ∉ authorAttrs ∧ "affiliation2" ∉ pubAttrs) ∧
    lazyGetattr authorAttrs Author.load_data deepTextDoc none "affiliation2" =
      (Except.error LErr.invalidField, none, false) ∧
    lazyGetattr pubAttrs Publication.load_data goodPubDoc
        (some [("title", FVal.optStr (some "X"))]) "affiliation2" =
      (Except.error LErr.invalidField,
        some [("title", FVal.optStr (some "X"))], false) :=
  ⟨⟨by decide, by decide⟩,
   (C7_invalid_field_access "affiliation2" deepTextDoc none
      (some [("title", FVal.optStr (some "X"))])).1 (by decide),
   (C7_invalid_field_access "affiliation2" goodPubDoc none
      (some [("title", FVal.optStr (some "X"))])).2 (by decide)⟩

/-- C6: A fetched publication record with a missing year element or
non-numeric year text makes the load fail with the parse error, which
propagates to the triggering field access with no default substituted; the
entity stays unloaded, and any subsequent access on the unloaded entity
attempts the load again. -/
theorem C6_missing_year_parse_error :
    ∀ (doc pub : XTree), pubRecord doc = some pub →
      (first_or_none (textsOf (childrenTagged pub "year")) = none ∨
        ∃ s, first_or_none (textsOf (childrenTagged pub "year")) = some s ∧
          parsePyInt s = none) →
      Publication.load_data doc = .error .parseError ∧
      (∀ key, key ∈ pubAttrs →
        lazyGetattr pubAttrs Publication.load_data doc none key =
          (.error .parseError, none, true)) ∧
      (∀ (doc2 : XTree) (key2 : String), key2 ∈ pubAttrs →
        (lazyGetattr pubAttrs Publication.load_data doc2 none key2).2.2 = true) := by
  intro doc pub hrec hyear
  have hy : yearOf pub = .error .parseError := by
    rcases hyear with h | ⟨s, hs, hp⟩
    · simp [yearOf, h]
    · simp [yearOf, hs, hp]
  have hload : Publication.load_data doc = .error .parseError := by
    simp [Publication.load_data, hrec, hy]
  refine ⟨hload, ?_, ?_⟩
  · intro key hk
    simp [lazyGetattr, hk, hload]
  · intro doc2 key2 hk2
    unfold lazyGetattr
    rw [if_pos hk2]
    cases hl : Publication.load_data doc2 with
    | error e => rfl
    | ok d => rfl

/-- Witness for C6 on a record document with no year element, retried on a
well-formed document. -/
theorem C6_missing_year_parse_error_witness :
    pubRecord yearlessDoc =
      some (XTree.node "article" [] none [XTree.node "title" [] (some "X") []]) ∧
    Publication.load_data yearlessDoc = .error .parseError ∧
    lazyGetattr pubAttrs Publication.load_data yearlessDoc none "year" =
      (.error .parseError, none, true) ∧
    (lazyGetattr pubAttrs Publication.load_data goodPubDoc none "year").2.2 = true :=
  have h := C6_missing_year_parse_error yearlessDoc
    (XTree.node "article" [] none [XTree.node "title" [] (some "X") []])
    (by rfl) (Or.inl (by rfl))
  ⟨by rfl, h.1, h.2.1 "year" (by decide), h.2.2 goodPubDoc "year" (by decide)⟩


theorem collectResults_eq_filterMap {α β : Type} (resolve : α → Option β)
    (hits : List α) :
    collectResults (hits.map resolve) = hits.filterMap resolve := by
  induction hits with
  | nil => rfl
  | cons h hs ih =>
    cases hr : resolve h <;>
      simp [collectResults, List.filterMap_cons, hr, ih]

/-- C4: When resolving or loading some hits fails, each failing hit is
swallowed (its resolver yields no value) and dropped without affecting the
other hits, and the result preserves the hit submission order minus the
dropped entries; in particular a 3-hit response whose second hit fails yields
the first and third results in order. -/
theorem C4_author_per_hit_isolation :
    (∀ {α β : Type} (resolve : α → Option β) (hits : List α),
        search_author resolve (some hits) = some (hits.filterMap resolve)) ∧
    (∀ {α β : Type} (resolve : α → Option β) (h1 h2 h3 : α) (a1 a3 : β),
        resolve h1 = some a1 → resolve h2 = none → resolve h3 = some a3 →
        search_author resolve (some [h1, h2, h3]) = some [a1, a3]) := by
  constructor
  · intro α β resolve hits
    simp [search_author, collectResults_eq_filterMap]
  · intro α β resolve h1 h2 h3 a1 a3 r1 r2 r3
    simp [search_author, collectResults, r1, r2, r3]

/-- Witness for C4: three hits where hit 2 fails to resolve. -/
theorem C4_author_per_hit_isolation_witness :
    (fun n : Nat => if n = 2 then (none : Option Nat) else some (10 * n)) 1 =
        some 10 ∧
    (fun n : Nat => if n = 2 then (none : Option Nat) else some (10 * n)) 2 =
        none ∧
    (fun n : Nat => if n = 2 then (none : Option Nat) else some (10 * n)) 3 =
        some 30 ∧
    search_author
        (fun n : Nat => if n = 2 then (none : Option Nat) else some (10 * n))
        (some [1, 2, 3]) = some [10, 30] :=
  ⟨rfl, rfl, rfl,
   C4_author_per_hit_isolation.2
     (fun n : Nat => if n = 2 then (none : Option Nat) else some (10 * n))
     1 2 3 10 30 rfl rfl rfl⟩

/-- C8 counterexample: on a search response with no hit list, the driver
returns with no value at all (Python `None`), which is not the empty result
collection the claim describes. -/
theorem C8_counterexample_none_not_empty :
    search_author (fun n : Nat => (some n : Option Nat))
      (none : Option (List Nat)) ≠ some ([] : List Nat) := by
  simp [search_author]

/-- C8 amended: on a search response with no hit list, the driver returns
early with Python `None` (no collection), and it does not raise. -/
theorem C8_no_hit_list_returns_none :
    ∀ {α β : Type} (resolve : α → Option β),
      search_author resolve none = none := by
  intro α β resolve
  rfl

/-- C9 counterexample: the single record element of `deepTextDoc` has text
only deeper in its subtree (its own text node is absent), so the code skips
it, while the spec's subtree-text reading keeps it. -/
theorem C9_counterexample_deep_text_record :
    authorPublications deepTextDoc = [] ∧
    specAuthorPublications deepTextDoc =
      [make_dict_from_tree (some (XTree.node "article" [] none
        [XTree.node "title" [] (some "X") []]))] ∧
    specAuthorPublications deepTextDoc ≠ authorPublications deepTextDoc := by
  refine ⟨rfl, rfl, fun h => ?_⟩
  exact absurd (congrArg List.length h) (by decide)

/-- C9 amended: `publications` contains exactly one Tree-Decoder result per
top-level record element that has a direct text node, in document order;
record elements without a direct text node are skipped. -/
theorem C9_publications_direct_text_only :
    ∀ (doc : XTree) (nm : String), lookupAttr doc "name" = some nm →
      ∃ d, Author.load_data doc = .ok d ∧
        lookupF d "publications" =
          some (FVal.dicts (((recordEls doc).filter (fun r => r.text.isSome)).map
            (fun r => make_dict_from_tree (some r)))) := by
  intro doc nm hnm
  refine ⟨[("name", .str nm),
           ("affiliation", .strList (affiliationTexts doc)),
           ("publications", .dicts (authorPublications doc)),
           ("homepages", .strList (homepageTexts doc))], ?_, ?_⟩
  · simp [Author.load_data, hnm]
  · simp [lookupF, authorPublications]

/-- Witness for C9 amended on the concrete profile document. -/
theorem C9_publications_direct_text_only_witness :
    lookupAttr deepTextDoc "name" = some "Jane Roe" ∧
    ∃ d, Author.load_data deepTextDoc = .ok d ∧
      lookupF d "publications" =
        some (FVal.dicts
          (((recordEls deepTextDoc).filter (fun r => r.text.isSome)).map
            (fun r => make_dict_from_tree (some r)))) :=
  ⟨rfl, C9_publications_direct_text_only deepTextDoc "Jane Roe" rfl⟩


theorem pubLoop_cons (oracle : Nat → Nat → Except PageErr PageResp)
    (fuel y f : Nat) (rest log : List (Nat × Nat)) (acc : List Nat) :
    pubLoop oracle (fuel + 1) ((y, f) :: rest) log acc =
      match oracle y f with
      | .error e => some (.error e)
      | .ok r =>
        if r.total = 0 || r.hit.isNone then
          pubLoop oracle fuel rest (log ++ [(y, f)]) acc
        else
          let acc2 := acc ++ cleanup (r.hit.getD [])
          if r.first + r.sent < r.total then
            pubLoop oracle fuel ((y, r.first + r.sent) :: rest)
              (log ++ [(y, f)]) acc2
          else
            pubLoop oracle fuel rest (log ++ [(y, f)]) acc2 := rfl

theorem oracle2500_page0 (fuel y : Nat) (rest log : List (Nat × Nat))
    (acc : List Nat) :
    pubLoop oracle2500 (fuel + 1) ((y, 0) :: rest) log acc =
      pubLoop oracle2500 fuel ((y, 1000) :: rest) (log ++ [(y, 0)])
        (acc ++ cleanup (List.replicate 1000 ⟨0⟩)) := by
  rw [pubLoop_cons]
  norm_num [oracle2500]

theorem oracle2500_page1000 (fuel y : Nat) (rest log : List (Nat × Nat))
    (acc : List Nat) :
    pubLoop oracle2500 (fuel + 1) ((y, 1000) :: rest) log acc =
      pubLoop oracle2500 fuel ((y, 2000) :: rest) (log ++ [(y, 1000)])
        (acc ++ cleanup (List.replicate 1000 ⟨1000⟩)) := by
  rw [pubLoop_cons]
  norm_num [oracle2500]

theorem oracle2500_page2000 (fuel y : Nat) (rest log : List (Nat × Nat))
    (acc : List Nat) :
    pubLoop oracle2500 (fuel + 1) ((y, 2000) :: rest) log acc =
      pubLoop oracle2500 fuel rest (log ++ [(y, 2000)])
        (acc ++ cleanup (List.replicate 500 ⟨2000⟩)) := by
  rw [pubLoop_cons]
  norm_num [oracle2500]

/-- C2: With a server reporting total 2500 at page size 1000 for one year,
the Publication Search Driver issues exactly 3 page requests at offsets 0,
1000 and 2000 (each continuation re-submitting the same query at offset
`first + sent`, exactly when `first + sent < total`), aggregates exactly
2500 hit records, and the loop returns as soon as the pending set is empty;
running a second such year alongside changes neither its request offsets nor
its per-year page count. -/
theorem C2_pagination_three_pages :
    (runLog (search_publication oracle2500 [2020] 10) =
        some [(2020, 0), (2020, 1000), (2020, 2000)] ∧
      (runHits (search_publication oracle2500 [2020] 10)).map List.length =
        some 2500) ∧
    ((runLog (search_publication oracle2500 [2019, 2020] 20)).map
        (fun log => ((log.filter (fun p => p.1 == 2019)).map Prod.snd,
                     (log.filter (fun p => p.1 == 2020)).map Prod.snd)) =
        some ([0, 1000, 2000], [0, 1000, 2000]) ∧
      (runHits (search_publication oracle2500 [2019, 2020] 20)).map List.length =
        some 5000) ∧
    (∀ (oracle : Nat → Nat → Except PageErr PageResp) (fuel : Nat)
        (log : List (Nat × Nat)) (acc : List Nat),
        pubLoop oracle fuel [] log acc = some (.ok (log, acc))) := by
  have h1 : search_publication oracle2500 [2020] 10 =
      some (.ok ([(2020, 0), (2020, 1000), (2020, 2000)],
        (([] ++ cleanup (List.replicate 1000 ⟨0⟩)) ++
          cleanup (List.replicate 1000 ⟨1000⟩)) ++
          cleanup (List.replicate 500 ⟨2000⟩))) := by
    show pubLoop oracle2500 (9 + 1) [(2020, 0)] [] [] = _
    rw [oracle2500_page0, show (9 : Nat) = 8 + 1 from rfl, oracle2500_page1000,
      show (8 : Nat) = 7 + 1 from rfl, oracle2500_page2000]
    rfl
  have h2 : search_publication oracle2500 [2019, 2020] 20 =
      some (.ok ([(2020, 0), (2020, 1000), (2020, 2000),
                  (2019, 0), (2019, 1000), (2019, 2000)],
        ((((([] ++ cleanup (List.replicate 1000 ⟨0⟩)) ++
          cleanup (List.replicate 1000 ⟨1000⟩)) ++
          cleanup (List.replicate 500 ⟨2000⟩)) ++
          cleanup (List.replicate 1000 ⟨0⟩)) ++
          cleanup (List.replicate 1000 ⟨1000⟩)) ++
          cleanup (List.replicate 500 ⟨2000⟩))) := by
    show pubLoop oracle2500 (19 + 1) [(2020, 0), (2019, 0)] [] [] = _
    rw [oracle2500_page0, show (19 : Nat) = 18 + 1 from rfl, oracle2500_page1000,
      show (18 : Nat) = 17 + 1 from rfl, oracle2500_page2000,
      show (17 : Nat) = 16 + 1 from rfl, oracle2500_page0,
      show (16 : Nat) = 15 + 1 from rfl, oracle2500_page1000,
      show (15 : Nat) = 14 + 1 from rfl, oracle2500_page2000]
    rfl
  refine ⟨⟨?_, ?_⟩, ⟨?_, ?_⟩, ?_⟩
  · rw [h1]; rfl
  · rw [h1]; simp [runHits, cleanup, -List.reduceReplicate]
  · rw [h2]; rfl
  · rw [h2]; simp [runHits, cleanup, -List.reduceReplicate]
  · intro oracle fuel log acc
    cases fuel <;> rfl

/-- C5: A failing page request aborts the whole Publication Search Driver
with that request's error; the hits already drained from the successful
first page are discarded, and no partial aggregate is delivered. -/
theorem C5_page_failure_aborts_all :
    oracleFailPage2 2020 0 =
      .ok { first := 0, sent := 2, total := 5, hit := some [⟨1⟩, ⟨2⟩] } ∧
    search_publication oracleFailPage2 [2020] 10 =
      some (.error (.transport 42)) ∧
    (∀ p : List (Nat × Nat) × List Nat,
        search_publication oracleFailPage2 [2020] 10 ≠ some (.ok p)) := by
  refine ⟨rfl, rfl, ?_⟩
  intro p h
  rw [show search_publication oracleFailPage2 [2020] 10 =
        some (.error (.transport 42)) from rfl] at h
  simp at h

/-- C10: A drained page whose response has no hit list (or zero total) causes
the loop to continue without submitting the continuation request, even when
its counts say `first + sent < total`; the remaining pages those counts
indicate are silently never fetched. -/
theorem C10_no_hit_skips_continuation :
    (∀ (oracle : Nat → Nat → Except PageErr PageResp) (fuel y f : Nat)
        (rest log : List (Nat × Nat)) (acc : List Nat) (r : PageResp),
        oracle y f = .ok r → (r.total = 0 ∨ r.hit = none) →
        pubLoop oracle (fuel + 1) ((y, f) :: rest) log acc =
          pubLoop oracle fuel rest (log ++ [(y, f)]) acc) ∧
    (oracleNoHit 2020 0 =
        .ok { first := 0, sent := 1000, total := 2500, hit := none } ∧
      0 + 1000 < 2500 ∧
      search_publication oracleNoHit [2020] 10 =
        some (.ok ([(2020, 0)], []))) := by
  constructor
  · intro oracle fuel y f rest log acc r hor hcond
    rw [pubLoop, hor]
    rcases hcond with h | h <;> simp [h]
  · exact ⟨rfl, by decide, by rfl⟩

/-- Witness for C10 on the concrete no-hit oracle. -/
theorem C10_no_hit_skips_continuation_witness :
    pubLoop oracleNoHit (5 + 1) [(2020, 0)] [] [] =
      pubLoop oracleNoHit 5 [] ([] ++ [(2020, 0)]) [] :=
  C10_no_hit_skips_continuation.1 oracleNoHit 5 2020 0 [] [] []
    { first := 0, sent := 1000, total := 2500, hit := none } rfl (Or.inr rfl)

end Dblp
